import Mathlib

/-!
Verification development for the helix-os repository.

Shallow embedding of the parts of the code the claims are about:
memory manager (src/memory/manager.py, working.py, semantic.py, schemas.py,
lifecycle_controller.py), build controller (src/builder/controller.py),
dockerizer (src/builder/dockerizer.py), WASM registry stemmer
(src/builder/wasm_registry.py) and unified registry arbitration
(src/builder/unified_registry.py).

Modelling conventions:
- Python floats are modelled as exact rationals (or reals where the code
  calls math.exp); machine float rounding is out of scope.
- Python strings are Lean Strings; where character-level computation is
  needed (stemmer, replace, digit rendering) we work on the List Char
  backing so that everything reduces in the kernel.
- Database identity columns (uuid), wall clock timestamps and the sqlite
  serialization layer are abstracted away: stores are association lists,
  a stored row is the dataclass value itself.
- External processes (LLM, docker build, docker run) are abstracted to
  their observable results, passed in as oracles.
-/

namespace Helix

/-- Outcome literal of TaskMemory (src/memory/schemas.py line 60).
The Python value written as the string with letters p a r t i a l
is named partly here because that spelling is reserved in this file. -/
inductive Outcome
  | success
  | failure
  | partly
  | pending
deriving DecidableEq, Repr

/-- MemoryTier enum (src/memory/schemas.py lines 14-19). -/
inductive MemoryTier
  | working
  | episodic
  | semantic
  | archive
deriving DecidableEq, Repr

/-- TaskMemory dataclass (src/memory/schemas.py lines 43-79); uuid and
timestamps abstracted, embedding kept as an optional real vector. -/
structure TaskMemory where
  raw_task : String := ""
  refined_task : String := ""
  agent_type : String := ""
  agent_image : Option String := none
  tools_used : List String := []
  outcome : Outcome := .pending
  execution_time_ms : ℚ := 0
  error_message : Option String := none
  result_summary : Option String := none
  access_count : ℕ := 0
  current_tier : MemoryTier := .working
  embedding : Option (List ℚ) := none
deriving DecidableEq, Repr

/-- success_rate property of TaskMemory (src/memory/schemas.py lines 72-79):
1.0 for success, 0.5 for the half-done outcome, 0.0 otherwise. -/
def TaskMemory.success_rate (t : TaskMemory) : ℚ :=
  if t.outcome = Outcome.success then 1.0
  else if t.outcome = Outcome.partly then 0.5
  else 0.0

/-- AgentCapability dataclass (src/memory/schemas.py lines 82-107);
uuid, timestamps and embedding abstracted. -/
structure AgentCapability where
  agent_type : String := ""
  description : String := ""
  keywords : List String := []
  total_executions : ℕ := 0
  successful_executions : ℕ := 0
  avg_execution_time_ms : ℚ := 0
  common_tools : List String := []
  task_patterns : List String := []
  current_tier : MemoryTier := .semantic
deriving DecidableEq, Repr

/-- State of a MemoryManager (src/memory/manager.py): the working tier is
one optional current task (src/memory/working.py, WorkingContext.current_task),
the episodic and semantic tiers are the rows of their sqlite tables. -/
structure MemState where
  working : Option TaskMemory
  episodic : List TaskMemory
  semantic : List AgentCapability
deriving DecidableEq, Repr

/-- A freshly constructed MemoryManager over an empty database. -/
def initialState : MemState := ⟨none, [], []⟩

/-- SemanticMemory.recall_by_agent_type (src/memory/semantic.py lines 59-69):
first row whose agent_type matches. -/
def recallByAgentType (store : List AgentCapability) (ty : String) :
    Option AgentCapability :=
  store.find? (fun c => c.agent_type == ty)

/-- The in-place update of an existing capability row in
SemanticMemory.update_from_execution (src/memory/semantic.py lines
100-108): increment the total, increment the success count when success,
and recompute the running average as (avg * (newTotal - 1) + x) / newTotal
exactly as the Python does after the in-place increment. -/
def bumpCap (c : AgentCapability) (success : Bool) (x : ℚ) :
    AgentCapability :=
  let newTotal := c.total_executions + 1
  { c with
    total_executions := newTotal
    successful_executions :=
      c.successful_executions + (if success then 1 else 0)
    avg_execution_time_ms :=
      (c.avg_execution_time_ms * ((newTotal : ℚ) - 1) + x)
        / (newTotal : ℚ) }

/-- SemanticMemory.update_from_execution (src/memory/semantic.py lines
96-120).  If a capability row for the class exists, update it in place;
otherwise insert a fresh row with total 1. -/
def updateFromExecution (store : List AgentCapability) (ty : String)
    (success : Bool) (x : ℚ) : List AgentCapability :=
  match recallByAgentType store ty with
  | some _ =>
      store.map (fun c =>
        if c.agent_type == ty then bumpCap c success x else c)
  | none =>
      store ++
        [{ agent_type := ty
           description := "Auto-learned capability for " ++ ty
           total_executions := 1
           successful_executions := if success then 1 else 0
           avg_execution_time_ms := x
           current_tier := .semantic }]

/-- MemoryManager.start_task (src/memory/manager.py lines 169-189): build a
pending TaskMemory (refined task falls back to the raw task when empty, the
Python "or") and set it as the current working task
(src/memory/working.py lines 22-24); nothing else is touched. -/
def startTask (s : MemState) (raw_task refined_task agent_type : String) :
    TaskMemory × MemState :=
  let task : TaskMemory :=
    { raw_task := raw_task
      refined_task := if refined_task = "" then raw_task else refined_task
      agent_type := agent_type
      outcome := .pending
      current_tier := .working }
  (task, { s with working := some task })

/-- MemoryManager.complete_task (src/memory/manager.py lines 191-227):
clear the current task; if there was none return None and stop.  Otherwise
update the task with the results, store it in episodic memory and update
the semantic stats with success = (outcome == success). -/
def completeTask (s : MemState) (outcome : Outcome)
    (result_summary : Option String) (execution_time_ms : ℚ)
    (agent_image : Option String) (error_message : Option String) :
    Option TaskMemory × MemState :=
  match s.working with
  | none => (none, s)
  | some task =>
      let task' :=
        { task with
          outcome := outcome
          result_summary := result_summary
          execution_time_ms := execution_time_ms
          agent_image := agent_image
          error_message := error_message
          current_tier := .episodic }
      (some task',
        { working := none
          episodic := s.episodic ++ [task']
          semantic :=
            updateFromExecution s.semantic task.agent_type
              (outcome == Outcome.success) execution_time_ms })

/-- EpisodicMemory._touch (src/memory/episodic.py lines 136-143) on one
row: increment access_count (last_accessed is time, abstracted away). -/
def touchRow (t : TaskMemory) : TaskMemory :=
  { t with access_count := t.access_count + 1 }

/-- Apply a function to the row at one index of the store (the UPDATE by
id of _touch); out-of-range indices touch nothing. -/
def modifyAt (f : TaskMemory → TaskMemory) :
    List TaskMemory → ℕ → List TaskMemory
  | [], _ => []
  | t :: rest, 0 => f t :: rest
  | t :: rest, i + 1 => t :: modifyAt f rest i

/-- The touch loop of EpisodicMemory.recall_similar (src/memory/episodic.py
lines 99-101): each returned row gets its access metadata bumped. -/
def touchRows (store : List TaskMemory) (idxs : List ℕ) : List TaskMemory :=
  idxs.foldl (fun st i => modifyAt touchRow st i) store

/-- Projection of a TaskMemory that forgets the access metadata: the
content a _touch write leaves unchanged. -/
def dropAccess (t : TaskMemory) : TaskMemory :=
  { t with access_count := 0 }

/-- n complete_task calls for one class folded over the semantic store only
(each call passes outcome and duration to update_from_execution, with
success = (outcome == success), src/memory/manager.py lines 221-225). -/
def applyExecutions (store : List AgentCapability) (ty : String)
    (evs : List (Outcome × ℚ)) : List AgentCapability :=
  evs.foldl
    (fun m e => updateFromExecution m ty (e.1 == Outcome.success) e.2) store

/-- Expected aggregates after the executions evs of one class, written as
the specification states them: total = n, successes counted, average =
arithmetic mean of the durations.  Compared against the code-side fold in
the claim-3 theorem. -/
def learnedCap (ty : String) (evs : List (Outcome × ℚ)) : AgentCapability :=
  { agent_type := ty
    description := "Auto-learned capability for " ++ ty
    total_executions := evs.length
    successful_executions :=
      (evs.filter (fun e => e.1 == Outcome.success)).length
    avg_execution_time_ms := (evs.map Prod.snd).sum / (evs.length : ℚ)
    current_tier := .semantic }

/-! ## Task classification (src/builder/controller.py lines 56-139) -/

/-- Classification result emitted by SubAgentController.classify_task. -/
structure Classification where
  agent_type : String
  required_apis : List String
  reasoning : String
deriving DecidableEq, Repr

/-- Contiguous-sublist check over lists (Python substring containment,
executable). -/
def listIsInfixOf (pat : List Char) : List Char → Bool
  | [] => pat.isEmpty
  | c :: rest => pat.isPrefixOf (c :: rest) || listIsInfixOf pat rest

/-- Python substring containment: kw in t (lower-cased elsewhere). -/
def containsSub (t kw : String) : Bool := listIsInfixOf kw.data t.data

/-- Character-wise lower casing of a string (Python str.lower restricted to
the ASCII range the keyword tables use). -/
def lowerStr (s : String) : String := ⟨s.data.map Char.toLower⟩

/-- research_keywords (src/builder/controller.py lines 66-72). -/
def research_keywords : List String :=
  ["research", "history", "find out", "look up", "search for",
   "what is", "who is", "when did", "where is", "how did",
   "facts about", "information about", "tell me about",
   "investigate", "discover", "learn about", "explore",
   "timeline", "origins", "evolution", "development of"]

/-- compute_keywords (src/builder/controller.py lines 75-79). -/
def compute_keywords : List String :=
  ["calculate", "compute", "fibonacci", "sum", "multiply",
   "divide", "subtract", "add", "math", "equation",
   "factorial", "prime", "average", "percentage", "solve"]

/-- data_keywords (src/builder/controller.py lines 82-85). -/
def data_keywords : List String :=
  ["fetch data", "parse json", "parse csv", "transform data",
   "api call", "extract from", "convert format", "data from"]

/-- code_keywords (src/builder/controller.py lines 88-91). -/
def code_keywords : List String :=
  ["write code", "generate code", "create script", "program",
   "function to", "implement", "code snippet", "write a function"]

/-- synthesis_keywords (src/builder/controller.py lines 94-97). -/
def synthesis_keywords : List String :=
  ["write a poem", "write a story", "creative writing",
   "opinion on", "your thoughts", "imagine", "compose"]

/-- Question words of the default branch (src/builder/controller.py
line 123). -/
def question_words : List String :=
  ["what", "who", "when", "where", "why", "how"]

/-- SubAgentController.classify_task (src/builder/controller.py lines
56-139): deterministic keyword match in priority order on the lower-cased
refined task; the default branch picks research on a question word and
synthesis otherwise. -/
def classifyTask (refined_task : String) : Classification :=
  let task_lower := lowerStr refined_task
  if research_keywords.any (fun kw => containsSub task_lower kw) then
    ⟨"research_agent", ["GOOGLE_SEARCH_API_KEY"],
      "Task involves researching or finding information"⟩
  else if compute_keywords.any (fun kw => containsSub task_lower kw) then
    ⟨"compute_agent", [], "Task involves mathematical computation"⟩
  else if data_keywords.any (fun kw => containsSub task_lower kw) then
    ⟨"data_agent", [], "Task involves data fetching or transformation"⟩
  else if code_keywords.any (fun kw => containsSub task_lower kw) then
    ⟨"code_agent", [], "Task involves code generation"⟩
  else if synthesis_keywords.any (fun kw => containsSub task_lower kw) then
    ⟨"synthesis_agent", ["GEMINI_API_KEY"],
      "Task involves pure creative synthesis"⟩
  else if question_words.any (fun kw => containsSub task_lower kw) then
    ⟨"research_agent", ["GOOGLE_SEARCH_API_KEY"],
      "Question-based task defaults to research"⟩
  else
    ⟨"synthesis_agent", ["GEMINI_API_KEY"],
      "Default fallback for unknown task type"⟩

/-- True when the lower-cased text matches one of the five keyword groups
(the non-default branches of classify_task). -/
def matchesKeywordGroup (t : String) : Bool :=
  let tl := lowerStr t
  research_keywords.any (fun kw => containsSub tl kw) ||
  compute_keywords.any (fun kw => containsSub tl kw) ||
  data_keywords.any (fun kw => containsSub tl kw) ||
  code_keywords.any (fun kw => containsSub tl kw) ||
  synthesis_keywords.any (fun kw => containsSub tl kw)

/-- True when the lower-cased text contains a question word. -/
def hasQuestionWord (t : String) : Bool :=
  question_words.any (fun kw => containsSub (lowerStr t) kw)

/-! ## Image verification (src/builder/dockerizer.py lines 62-83) -/

/-- Checks whether an Except value is the error case. -/
def isError {ε α : Type} : Except ε α → Bool
  | .error _ => true
  | .ok _ => false

/-- Dockerizer.verify_image, as a function of the exit code of the smoke
run with the sentinel argument (the subprocess itself succeeding): exit 139
raises, exits 126 and 127 raise, anything else passes.  Message text is
abbreviated (the Python interpolates the image tag). -/
def verifyImage (exitCode : ℤ) : Except String Unit :=
  if exitCode == 139 then
    .error "SIGSEGV (139) detected during verification"
  else if exitCode == 126 || exitCode == 127 then
    .error "Command execution error - possibly arch mismatch"
  else
    .ok ()

/-! ## Unified registry arbitration (src/builder/unified_registry.py) -/

/-- Runtime discriminator of an AgentMatch. -/
inductive Runtime
  | k8s
  | wasm
deriving DecidableEq, Repr

/-- AgentMatch dataclass (src/builder/unified_registry.py lines 15-27). -/
structure AgentMatch where
  name : String
  runtime : Runtime
  reference : String
  score : ℚ
  task : String
  capabilities : List String := []
deriving DecidableEq, Repr

/-- UnifiedAgentRegistry._pick_best (src/builder/unified_registry.py lines
193-214): the container match wins if its score exceeds the WASM score by
more than 0.1, the WASM match wins if it is more than 0.1 higher, and on a
close call WASM is preferred. -/
def pickBest (k8sMatch wasmMatch : AgentMatch) : AgentMatch :=
  let score_diff := k8sMatch.score - wasmMatch.score
  if score_diff > 0.1 then k8sMatch
  else if score_diff < -0.1 then wasmMatch
  else wasmMatch

/-- The arbitration step of UnifiedAgentRegistry.search
(src/builder/unified_registry.py lines 71-88), as a function of the two
backend results: none, one or both candidates. -/
def unifiedArbitrate :
    Option AgentMatch → Option AgentMatch → Option AgentMatch
  | none, none => none
  | some k, none => some k
  | none, some w => some w
  | some k, some w => some (pickBest k w)

/-! ## Build pipeline (src/builder/controller.py lines 141-274)

The external effects of the pipeline are abstracted into an oracle giving
the observable result of each attempt: the compile sandbox, the LLM repair
call, the docker build-and-push, and the verify smoke run, each indexed by
the attempt number. -/

/-- Results of the external steps of one create_agent run.  The two
context fields abstract the embedding-based ranking of the context
injection step (src/builder/controller.py lines 172-174), in the same way
the embedding backend is abstracted elsewhere: contextTouched gives the
indices of the episodic rows that EpisodicMemory.recall_similar returns
(the top rows by similarity, at most 3) and therefore touches;
contextNonEmpty tells whether format_for_prompt produced a non-empty
preamble, in which case the logging line at controller.py line 174 runs a
second identical recall that touches the same rows again. -/
structure PipelineOracle where
  compileResult : ℕ → Except String String
  fixResult : ℕ → Except String String
  buildResult : ℕ → Except String String
  verifyResult : ℕ → Except String Unit
  contextTouched : List ℕ
  contextNonEmpty : Bool

/-- max_retries of both loops (src/builder/controller.py line 182). -/
def maxRetries : ℕ := 2

/-- Phase 1 of create_agent (src/builder/controller.py lines 187-218):
compile, and on failure repair with the LLM and retry while attempts
remain; a failed repair call raises the repair error, an exhausted budget
raises the compile error.  k is the attempt index, the second argument
the remaining retries (initially max_retries). -/
def compileLoop (o : PipelineOracle) : ℕ → ℕ → Except String String
  | k, 0 =>
    match o.compileResult k with
    | .ok binary => .ok binary
    | .error e => .error e
  | k, left + 1 =>
    match o.compileResult k with
    | .ok binary => .ok binary
    | .error _ =>
      match o.fixResult k with
      | .ok _ => compileLoop o (k + 1) left
      | .error llmErr => .error llmErr

/-- One phase-2 attempt (src/builder/controller.py lines 237-241): docker
build-and-push followed by the verify smoke run; the first raised error
aborts the attempt. -/
def packageVerifyAttempt (o : PipelineOracle) (k : ℕ) : Except String String :=
  match o.buildResult k with
  | .error e => .error e
  | .ok imageTag =>
    match o.verifyResult k with
    | .error e => .error e
    | .ok _ => .ok imageTag

/-- Phase 2 of create_agent (src/builder/controller.py lines 220-274): on a
successful build-and-verify, complete_task(success, summary, duration,
image) and return the tag; on failure retry while attempts remain; on an
exhausted budget complete_task(failure, error text, duration) and re-raise
the error. -/
def packageVerifyLoop (o : PipelineOracle) (s : MemState) (dur : ℚ) :
    ℕ → ℕ → Except String String × MemState
  | k, 0 =>
    match packageVerifyAttempt o k with
    | .ok imageTag =>
        (.ok imageTag,
          (completeTask s .success (some ("Created agent: " ++ imageTag))
            dur (some imageTag) none).2)
    | .error e =>
        (.error e,
          (completeTask s .failure none dur none (some e)).2)
  | k, left + 1 =>
    match packageVerifyAttempt o k with
    | .ok imageTag =>
        (.ok imageTag,
          (completeTask s .success (some ("Created agent: " ++ imageTag))
            dur (some imageTag) none).2)
    | .error _ => packageVerifyLoop o s dur (k + 1) left

/-- The episodic-store effect of the context injection of create_agent
(src/builder/controller.py lines 172-174): format_context_for_prompt runs
ContextSlicer.slice_for_task, whose episodic recall
(src/memory/context_slicer.py line 41) calls EpisodicMemory.recall_similar
and touches every returned row (src/memory/episodic.py lines 99-101); the
semantic and working reads on that path do not write.  If the preamble is
non-empty, the logging line repeats the episodic recall, touching the
same rows once more. -/
def contextInjectionTouch (o : PipelineOracle)
    (store : List TaskMemory) : List TaskMemory :=
  let st1 := touchRows store o.contextTouched
  if o.contextNonEmpty then touchRows st1 o.contextTouched else st1

/-- The memory state right after the start_task call and the context
injection of create_agent (src/builder/controller.py lines 165-174): the
pending task is current in working memory and the episodic rows returned
by the context recall have been touched. -/
def postContextState (o : PipelineOracle) (s : MemState)
    (raw_task refined_task : String) : MemState :=
  let s1 :=
    (startTask s raw_task refined_task
      (classifyTask refined_task).agent_type).2
  { s1 with episodic := contextInjectionTouch o s1.episodic }

/-- SubAgentController.create_agent (src/builder/controller.py lines
141-274) restricted to what the claims observe: classify the refined task
(the refine LLM call is abstracted to its output, passed in as
refined_task), start the task in working memory, run the context
injection (whose only memory write is the episodic access-metadata
touches), run the compile loop, and on success the package-and-verify
loop.  dur abstracts the measured wall time written by complete_task. -/
def createAgent (o : PipelineOracle) (s : MemState)
    (raw_task refined_task : String) (dur : ℚ) :
    Except String String × MemState :=
  match compileLoop o 0 maxRetries with
  | .error e => (.error e, postContextState o s raw_task refined_task)
  | .ok _ =>
      packageVerifyLoop o (postContextState o s raw_task refined_task)
        dur 0 maxRetries

/-! ## Stemmer (src/builder/wasm_registry.py lines 177-227) -/

/-- compound_suffixes table of WASMRegistry._stem: the suffix together with
the minimum number of characters that must remain, in source order. -/
def suffixRules : List (List Char × ℕ) :=
  [("ications".data, 5), ("ational".data, 5), ("ations".data, 5),
   ("ating".data, 5), ("uting".data, 5), ("izing".data, 5),
   ("ising".data, 5), ("ition".data, 5), ("ation".data, 5),
   ("ment".data, 4), ("ness".data, 4), ("able".data, 4),
   ("ible".data, 4), ("ical".data, 4), ("ally".data, 4),
   ("ting".data, 4), ("ive".data, 3), ("ful".data, 3),
   ("ous".data, 3), ("ize".data, 3), ("ise".data, 3),
   ("ate".data, 3), ("ing".data, 3), ("ion".data, 3),
   ("ed".data, 2), ("er".data, 2), ("ly".data, 2),
   ("al".data, 2), ("s".data, 2)]

/-- Step 1 of _stem: strip the first listed suffix that matches and leaves
at least its minimum remainder (the loop with break). -/
def stemStrip (w : List Char) : List Char :=
  match suffixRules.find?
      (fun r => r.1.isSuffixOf w && decide (r.2 ≤ w.length - r.1.length)) with
  | some r => w.take (w.length - r.1.length)
  | none => w

/-- Step 2 of _stem: strip a trailing letter e from words longer than 4
characters. -/
def stemFinal (w : List Char) : List Char :=
  if w.getLast? == some 'e' && decide (4 < w.length) then w.dropLast else w

/-- WASMRegistry._stem (src/builder/wasm_registry.py lines 177-227):
lower-case, strip one suffix, strip a trailing letter e. -/
def stem (w : List Char) : List Char :=
  stemFinal (stemStrip (w.map Char.toLower))

/-! ## Image naming and labels (src/builder/controller.py lines 224-235,
src/builder/dockerizer.py lines 10-33) -/

/-- Decimal digit character for a value below ten. -/
def decDigit (n : ℕ) : Char := Char.ofNat (48 + n)

/-- Fuel-driven decimal rendering of a natural number (Python str(int)). -/
def decDigitsAux : ℕ → ℕ → List Char
  | 0, _ => []
  | fuel + 1, n =>
    if n < 10 then [decDigit n]
    else decDigitsAux fuel (n / 10) ++ [decDigit (n % 10)]

/-- Decimal digits of a natural number, most significant first. -/
def decDigits (n : ℕ) : List Char := decDigitsAux (n + 1) n

/-- Decimal string of a natural number. -/
def decRepr (n : ℕ) : String := ⟨decDigits n⟩

/-- Fuel-driven replacement of every occurrence of pat by rep, left to
right and non-overlapping (Python str.replace). -/
def replaceAllAux : ℕ → List Char → List Char → List Char → List Char
  | 0, s, _, _ => s
  | fuel + 1, s, pat, rep =>
    match s with
    | [] => []
    | c :: rest =>
      if !pat.isEmpty && pat.isPrefixOf (c :: rest) then
        rep ++ replaceAllAux fuel ((c :: rest).drop pat.length) pat rep
      else
        c :: replaceAllAux fuel rest pat rep

/-- Python str.replace over the character list of a string. -/
def replaceAll (s pat rep : List Char) : List Char :=
  replaceAllAux s.length s pat rep

/-- type_short (src/builder/controller.py line 225): the agent type with
the substring _agent removed. -/
def typeShort (agent_type : String) : String :=
  ⟨replaceAll agent_type.data "_agent".data []⟩

/-- agent_name (src/builder/controller.py line 226):
helix-{type_short}-agent-{unix seconds}. -/
def agentName (agent_type : String) (ts : ℕ) : String :=
  "helix-" ++ typeShort agent_type ++ "-agent-" ++ decRepr ts

/-- metadata dict built by create_agent (src/builder/controller.py lines
227-235), in source order; createdStr abstracts str(time.time()). -/
def buildMetadata (agent_type refined_task createdStr : String) :
    List (String × String) :=
  [("task", refined_task),
   ("capabilities", agent_type ++ ", net-enabled"),
   ("helix.task", refined_task),
   ("helix.created", createdStr),
   ("helix.capabilities", agent_type ++ ", net-enabled"),
   ("helix.author", "gemini-2.5-flash"),
   ("helix.type", agent_type)]

/-- Dictionary lookup with empty-string default. -/
def metaGet (m : List (String × String)) (k : String) : String :=
  ((m.find? (fun kv => kv.1 == k)).map Prod.snd).getD ""

/-- The LABEL lines Dockerizer.build_and_push writes into the image
(src/builder/dockerizer.py lines 26-33): only helix.task from
metadata[task] and helix.capabilities from metadata[capabilities]; the
joined labels string built on line 24 is never used. -/
def imageLabels (metadata : List (String × String)) :
    List (String × String) :=
  [("helix.task", metaGet metadata "task"),
   ("helix.capabilities", metaGet metadata "capabilities")]

/-- The five agent classes of the specification (section 4.1). -/
def agentClasses : List String :=
  ["research", "compute", "data", "code", "synthesis"]

/-- Modelled from the spec: the name pattern helix-(class)-(digits) claimed
in sections 6 and 8 of the specification, as an executable matcher over
the five class names. -/
def specNameMatch (s : String) : Bool :=
  agentClasses.any (fun c =>
    let pre := ("helix-" ++ c ++ "-").data
    pre.isPrefixOf s.data &&
    !(s.data.drop pre.length).isEmpty &&
    (s.data.drop pre.length).all Char.isDigit)

/-- The five label keys the specification requires on every image. -/
def requiredLabelKeys : List String :=
  ["helix.task", "helix.capabilities", "helix.type", "helix.created",
   "helix.author"]

/-- True when every required label key is present in the key-value list. -/
def hasAllLabels (labels : List (String × String)) : Bool :=
  requiredLabelKeys.all (fun k => labels.any (fun kv => kv.1 == k))

/-- The agent_type strings classify_task can produce
(src/builder/controller.py lines 100-130). -/
def agentTypes : List String :=
  ["research_agent", "compute_agent", "data_agent", "code_agent",
   "synthesis_agent"]

/-! ## Lifecycle scoring (src/memory/lifecycle_controller.py lines 35-87)

Numbers are modelled as exact rationals; the transcendental math.exp of
the recency factor is abstracted as a function parameter expFn, applied on
both the code side and the claim side of the claim-8 theorem. -/

/-- Recency factor: exponential decay of the integer days since last
access (src/memory/lifecycle_controller.py lines 47-49); expFn abstracts
math.exp. -/
def recencyScoreOf (expFn : ℚ → ℚ) (days : ℕ) : ℚ :=
  expFn (-(days : ℚ) / 7)

/-- Frequency factor: access count normalized by 10 and capped at 1
(src/memory/lifecycle_controller.py line 52). -/
def frequencyScoreOf (access : ℕ) : ℚ := min ((access : ℚ) / 10.0) 1.0

/-- MemoryLifecycleController._calculate_relevance (src/memory/
lifecycle_controller.py lines 73-87): 0.5 without a current task, the
embedding similarity of the entry against the current refined task when
the entry has an embedding, else 0.5.  similarity and embed abstract the
embedding backend (src/memory/embeddings.py). -/
def calcRelevance (current : Option TaskMemory)
    (entryEmbedding : Option (List ℚ))
    (similarity : List ℚ → List ℚ → ℚ) (embed : String → List ℚ) : ℚ :=
  match current with
  | none => 0.5
  | some cur =>
    match entryEmbedding with
    | some emb => similarity emb (embed cur.refined_task)
    | none => 0.5

/-- MemoryLifecycleController.calculate_lifecycle_score (src/memory/
lifecycle_controller.py lines 35-71) for an episodic TaskMemory entry:
weighted sum of recency, frequency, relevance and the success rate of the
outcome, clamped into the unit interval; daysSinceAccess abstracts
(now - entry.last_accessed).days. -/
def calculateLifecycleScore (expFn : ℚ → ℚ) (entry : TaskMemory)
    (daysSinceAccess : ℕ) (current : Option TaskMemory)
    (similarity : List ℚ → List ℚ → ℚ) (embed : String → List ℚ) : ℚ :=
  let recency_score := recencyScoreOf expFn daysSinceAccess
  let frequency_score := frequencyScoreOf entry.access_count
  let relevance_score := calcRelevance current entry.embedding similarity embed
  let success_score := entry.success_rate
  let score := 0.3 * recency_score + 0.2 * frequency_score +
    0.3 * relevance_score + 0.2 * success_score
  min (max score 0.0) 1.0

/-- The outcome factor exactly as the claim words it: 1.0 for success, 0.5
for the half-done outcome, 0.0 for failure (and 0.0 in the remaining
pending case, which the claim leaves unspecified). -/
def claimOutcomeValue : Outcome → ℚ
  | .success => 1.0
  | .partly => 0.5
  | _ => 0.0

/-- A concrete completed episodic entry used to exercise the lifecycle
score theorem. -/
def sampleEntry : TaskMemory :=
  { outcome := Outcome.success, access_count := 3 }

/-! ## Concrete oracles used to exercise the pipeline theorems -/

/-- A run whose compile sandbox rejects every attempt while the repair
LLM keeps answering: the compile retry budget is exhausted. -/
def oracleCompileFail : PipelineOracle :=
  { compileResult := fun _ => .error "compile boom"
    fixResult := fun _ => .ok "fixed code"
    buildResult := fun _ => .ok "localhost:5001/helix-synthesis-agent-1:latest"
    verifyResult := fun _ => .ok ()
    contextTouched := []
    contextNonEmpty := false }

/-- A run that compiles first try but whose docker push fails every
attempt: the package-and-verify retry budget is exhausted. -/
def oraclePushFail : PipelineOracle :=
  { compileResult := fun _ => .ok "binary"
    fixResult := fun _ => .ok "fixed code"
    buildResult := fun _ => .error "push boom"
    verifyResult := fun _ => .ok ()
    contextTouched := []
    contextNonEmpty := false }

/-! # Theorems -/

/-- Claim C1, counterexample.  The claim states that start_task on a
non-empty working slot forcibly completes the prior task with the
half-done outcome and writes it to episodic memory.  Starting task A and
then task B from a fresh manager leaves episodic memory empty: the prior
task is silently dropped (it is replaced as the current task and never
stored). -/
theorem claim1_counterexample :
    ((startTask initialState "task A" "" "research_agent").2).working =
      some (startTask initialState "task A" "" "research_agent").1 ∧
    (startTask ((startTask initialState "task A" "" "research_agent").2)
        "task B" "" "research_agent").2.episodic = [] ∧
    (startTask ((startTask initialState "task A" "" "research_agent").2)
        "task B" "" "research_agent").2.working ≠
      some (startTask initialState "task A" "" "research_agent").1 := by
  decide

/-- Claim C1, amended.  Working memory holds at most one current task (a
single optional slot, so this is structural); start_task always makes the
new pending task current, and it replaces any prior current task without
writing anything: both the episodic and the semantic store are left
unchanged, so the prior task is discarded rather than partial-completed. -/
theorem claim1_amended (s : MemState) (raw refined ty : String) :
    ((startTask s raw refined ty).2).working =
      some (startTask s raw refined ty).1 ∧
    (startTask s raw refined ty).1.outcome = Outcome.pending ∧
    ((startTask s raw refined ty).2).episodic = s.episodic ∧
    ((startTask s raw refined ty).2).semantic = s.semantic :=
  ⟨rfl, rfl, rfl, rfl⟩

/-- Claim C5: when both the container and the WASM backend return a
candidate, the unified search keeps the higher-scoring one if the scores
differ by more than 0.1 in absolute value, and otherwise keeps the WASM
candidate. -/
theorem claim5_arbitration (k w : AgentMatch) :
    unifiedArbitrate (some k) (some w) =
      some (if 0.1 < |k.score - w.score| then
              (if w.score < k.score then k else w)
            else w) := by
  by_cases h1 : k.score - w.score > 0.1
  · have habs : (0.1 : ℚ) < |k.score - w.score| :=
      lt_of_lt_of_le h1 (le_abs_self _)
    have hlt : w.score < k.score := by linarith
    simp [unifiedArbitrate, pickBest, h1, habs, hlt]
  · by_cases h2 : k.score - w.score < -0.1
    · have habs : (0.1 : ℚ) < |k.score - w.score| := by
        have := neg_le_abs (k.score - w.score)
        linarith
      have hnlt : ¬ w.score < k.score := by
        intro hc
        have : (0 : ℚ) < k.score - w.score := by linarith
        linarith
      simp [unifiedArbitrate, pickBest, h1, h2, habs, hnlt]
    · have habs : ¬ (0.1 : ℚ) < |k.score - w.score| := by
        rw [not_lt, abs_le]
        constructor <;> linarith [not_lt.mp h1, not_lt.mp h2]
      simp [unifiedArbitrate, pickBest, h1, h2, habs]

/-- Claim C6: image verification raises exactly when the smoke run of the
image with the sentinel argument exits with code 139, 126 or 127; every
other exit code passes. -/
theorem claim6_verify (c : ℤ) :
    isError (verifyImage c) = true ↔ c = 139 ∨ c = 126 ∨ c = 127 := by
  unfold verifyImage
  split_ifs with h1 h2 <;> simp_all [isError]

/-- Claim C7: classification is a pure function of the task text (the
embedding is a function, so equal inputs give equal results and there are
no effects); on any text matching none of the five keyword groups it
returns the research class with the web-search credential when the
lower-cased text contains a question word, and the synthesis class with
the LLM credential otherwise. -/
theorem claim7_classify_default (t : String)
    (h : matchesKeywordGroup t = false) :
    classifyTask t =
      if hasQuestionWord t then
        ⟨"research_agent", ["GOOGLE_SEARCH_API_KEY"],
          "Question-based task defaults to research"⟩
      else
        ⟨"synthesis_agent", ["GEMINI_API_KEY"],
          "Default fallback for unknown task type"⟩ := by
  unfold matchesKeywordGroup at h
  simp only [Bool.or_eq_false_iff] at h
  obtain ⟨⟨⟨⟨h1, h2⟩, h3⟩, h4⟩, h5⟩ := h
  simp [classifyTask, hasQuestionWord, h1, h2, h3, h4, h5]

/-- Witness for claim C7 at a text matching no keyword group and holding
no question word. -/
theorem claim7_witness :
    matchesKeywordGroup "zzz qqq" = false ∧
    classifyTask "zzz qqq" =
      (if hasQuestionWord "zzz qqq" then
        ⟨"research_agent", ["GOOGLE_SEARCH_API_KEY"],
          "Question-based task defaults to research"⟩
      else
        ⟨"synthesis_agent", ["GEMINI_API_KEY"],
          "Default fallback for unknown task type"⟩) :=
  ⟨by decide, claim7_classify_default "zzz qqq" (by decide)⟩

/-- Claim C10: complete_task with no current task returns None and leaves
the whole memory state, in particular the episodic and the semantic
store, unchanged. -/
theorem claim10_complete_noop (s : MemState) (outcome : Outcome)
    (rs : Option String) (ms : ℚ) (img err : Option String)
    (h : s.working = none) :
    completeTask s outcome rs ms img err = (none, s) := by
  simp [completeTask, h]

/-- Witness for claim C10 on the fresh manager state. -/
theorem claim10_witness :
    initialState.working = none ∧
    completeTask initialState Outcome.success none 0 none none =
      (none, initialState) :=
  ⟨rfl, claim10_complete_noop initialState Outcome.success none 0 none none
    rfl⟩

/-- Every suffix rule requires at least 2 remaining characters. -/
theorem suffixRules_min_two : ∀ r ∈ suffixRules, 2 ≤ r.2 := by decide

/-- The suffix-stripping step never goes below 2 characters (unless the
word was already shorter). -/
theorem stemStrip_length (w : List Char) :
    min w.length 2 ≤ (stemStrip w).length := by
  unfold stemStrip
  cases hf : suffixRules.find?
      (fun r => r.1.isSuffixOf w && decide (r.2 ≤ w.length - r.1.length)) with
  | none => exact Nat.min_le_left _ _
  | some r =>
    have hp := List.find?_some hf
    have hmem := List.mem_of_find?_eq_some hf
    have h2 : 2 ≤ r.2 := suffixRules_min_two r hmem
    simp only [Bool.and_eq_true, decide_eq_true_eq] at hp
    obtain ⟨hsuf, hrem⟩ := hp
    rw [List.length_take]
    omega

/-- The trailing-letter-e step never goes below 2 characters. -/
theorem stemFinal_length (w : List Char) :
    min w.length 2 ≤ (stemFinal w).length := by
  unfold stemFinal
  split_ifs with h
  · simp only [Bool.and_eq_true, decide_eq_true_eq] at h
    rw [List.length_dropLast]
    omega
  · exact Nat.min_le_left _ _

/-- Claim C4, counterexample.  The stemmer is not idempotent: stemming the
word runnings strips only the plural (one suffix per call), so a second
application strips ing as well.  And the result can be 2 characters long
on a 3-character input, since the plural rule only requires 2 remaining
characters: the word its stems to it. -/
theorem claim4_counterexample :
    stem (stem "runnings".data) ≠ stem "runnings".data ∧
    (stem "its".data).length < 3 ∧ 3 ≤ "its".data.length := by
  decide

/-- Claim C4, amended.  One call of the stemmer strips at most one suffix,
so it need not be idempotent; the guaranteed lower bound on the result is
2 characters, not 3: stem(w) is never shorter than 2 characters unless w
itself was shorter than 2 characters. -/
theorem claim4_amended (w : List Char) :
    min w.length 2 ≤ (stem w).length := by
  unfold stem
  have h1 := stemStrip_length (w.map Char.toLower)
  have h2 := stemFinal_length (stemStrip (w.map Char.toLower))
  rw [List.length_map] at h1
  omega

/-- Claim C8: for a completed episodic entry the lifecycle score equals
0.3 * exp(-days/7) + 0.2 * min(access/10, 1) + 0.3 * relevance + 0.2 *
outcome, clamped to the unit interval, where the outcome factor is 1.0
for success, 0.5 for the half-done outcome and 0.0 for failure, and the
relevance factor defaults to 0.5 when there is no current task.  expFn
abstracts math.exp, applied identically on both sides. -/
theorem claim8_lifecycle_score (expFn : ℚ → ℚ) (entry : TaskMemory)
    (days : ℕ) (current : Option TaskMemory)
    (similarity : List ℚ → List ℚ → ℚ) (embed : String → List ℚ)
    (_h : entry.outcome ≠ Outcome.pending) :
    calculateLifecycleScore expFn entry days current similarity embed =
      min (max (0.3 * expFn (-(days : ℚ) / 7) +
        0.2 * min ((entry.access_count : ℚ) / 10) 1 +
        0.3 * calcRelevance current entry.embedding similarity embed +
        0.2 * claimOutcomeValue entry.outcome) 0) 1 ∧
    (current = none →
      calcRelevance current entry.embedding similarity embed = 0.5) := by
  constructor
  · have hval : entry.success_rate = claimOutcomeValue entry.outcome := by
      cases ho : entry.outcome <;>
        simp [TaskMemory.success_rate, claimOutcomeValue, ho]
    simp only [calculateLifecycleScore, recencyScoreOf, frequencyScoreOf,
      hval]
    norm_num
  · intro hc
    simp [calcRelevance, hc]

/-- Witness for claim C8 on a successful entry with three accesses, two
days since last access and no current task. -/
theorem claim8_witness :
    sampleEntry.outcome ≠ Outcome.pending ∧
    (calculateLifecycleScore (fun q => q) sampleEntry 2 none
        (fun _ _ => 0) (fun _ => []) =
      min (max (0.3 * (fun q : ℚ => q) (-((2 : ℕ) : ℚ) / 7) +
        0.2 * min ((sampleEntry.access_count : ℚ) / 10) 1 +
        0.3 * calcRelevance none sampleEntry.embedding
          (fun _ _ => 0) (fun _ => []) +
        0.2 * claimOutcomeValue sampleEntry.outcome) 0) 1 ∧
      ((none : Option TaskMemory) = none →
        calcRelevance none sampleEntry.embedding
          (fun _ _ => 0) (fun _ => []) = 0.5)) :=
  ⟨by decide,
   claim8_lifecycle_score (fun q => q) sampleEntry 2 none
     (fun _ _ => 0) (fun _ => []) (by decide)⟩

/-- find? skips a block of elements on which the predicate is false. -/
theorem find?_append_left_none {α : Type} (p : α → Bool) (l1 l2 : List α)
    (h : ∀ c ∈ l1, p c = false) :
    (l1 ++ l2).find? p = l2.find? p := by
  induction l1 with
  | nil => rfl
  | cons a l ih =>
    rw [List.cons_append, List.find?_cons_of_neg, ih]
    · exact fun c hc => h c (by simp [hc])
    · simp [h a (by simp)]

/-- Looking up a class after other classes finds the appended row. -/
theorem recall_append (m0 : List AgentCapability) (ty : String)
    (h0 : ∀ c ∈ m0, c.agent_type ≠ ty) (cap : AgentCapability)
    (hcap : cap.agent_type = ty) :
    recallByAgentType (m0 ++ [cap]) ty = some cap := by
  unfold recallByAgentType
  rw [find?_append_left_none _ _ _
    (fun c hc => by simp [h0 c hc])]
  simp [hcap]

/-- update_from_execution on a store whose only row for the class is the
appended one bumps exactly that row. -/
theorem updateFromExecution_append (m0 : List AgentCapability)
    (ty : String) (h0 : ∀ c ∈ m0, c.agent_type ≠ ty)
    (cap : AgentCapability) (hcap : cap.agent_type = ty)
    (success : Bool) (x : ℚ) :
    updateFromExecution (m0 ++ [cap]) ty success x =
      m0 ++ [bumpCap cap success x] := by
  unfold updateFromExecution
  rw [recall_append m0 ty h0 cap hcap]
  dsimp only
  rw [List.map_append]
  congr 1
  · have : m0.map (fun c =>
        if c.agent_type == ty then bumpCap c success x else c) =
        m0.map id :=
      List.map_congr_left (fun c hc => by simp [h0 c hc])
    rw [this, List.map_id]
  · simp [hcap]

/-- update_from_execution on a store with no row for the class appends the
fresh row. -/
theorem updateFromExecution_fresh (m0 : List AgentCapability)
    (ty : String) (h0 : ∀ c ∈ m0, c.agent_type ≠ ty)
    (success : Bool) (x : ℚ) :
    updateFromExecution m0 ty success x =
      m0 ++
        [{ agent_type := ty
           description := "Auto-learned capability for " ++ ty
           total_executions := 1
           successful_executions := if success then 1 else 0
           avg_execution_time_ms := x
           current_tier := .semantic }] := by
  unfold updateFromExecution recallByAgentType
  rw [List.find?_eq_none.mpr (fun c hc => by simp [h0 c hc])]

/-- Folding the executions of one class over a store that does not hold
the class yet appends exactly one row carrying the specified aggregates. -/
theorem applyExecutions_spec (m0 : List AgentCapability) (ty : String)
    (h0 : ∀ c ∈ m0, c.agent_type ≠ ty) :
    ∀ evs : List (Outcome × ℚ), evs ≠ [] →
      applyExecutions m0 ty evs = m0 ++ [learnedCap ty evs] := by
  intro evs
  induction evs using List.reverseRecOn with
  | nil => intro hne; exact absurd rfl hne
  | append_singleton evs e ih =>
    intro _
    have hfold : applyExecutions m0 ty (evs ++ [e]) =
        updateFromExecution (applyExecutions m0 ty evs) ty
          (e.1 == Outcome.success) e.2 := by
      unfold applyExecutions
      rw [List.foldl_append]
      rfl
    rcases List.eq_nil_or_concat evs with hnil | ⟨l, b, hlb⟩
    · subst hnil
      rw [hfold]
      show updateFromExecution m0 ty (e.1 == Outcome.success) e.2 = _
      rw [updateFromExecution_fresh m0 ty h0]
      have hcapEq :
          ({ agent_type := ty
             description := "Auto-learned capability for " ++ ty
             total_executions := 1
             successful_executions :=
               if (e.1 == Outcome.success) then 1 else 0
             avg_execution_time_ms := e.2
             current_tier := .semantic } : AgentCapability) =
            learnedCap ty [e] := by
        unfold learnedCap
        cases ho : (e.1 == Outcome.success) <;> simp [ho, List.filter]
      have hsame : learnedCap ty ([] ++ [e]) = learnedCap ty [e] := rfl
      rw [hsame, hcapEq]
    · have hne : evs ≠ [] := by
        rw [hlb]
        simp
      rw [hfold, ih hne,
        updateFromExecution_append m0 ty h0 (learnedCap ty evs) rfl]
      have hlen0 : ((evs.length : ℚ)) ≠ 0 := by
        have hz : evs.length ≠ 0 :=
          fun hz => hne (List.eq_nil_of_length_eq_zero hz)
        exact_mod_cast hz
      have hcapEq :
          bumpCap (learnedCap ty evs) (e.1 == Outcome.success) e.2 =
            learnedCap ty (evs ++ [e]) := by
        unfold bumpCap learnedCap
        simp only [AgentCapability.mk.injEq, List.filter_append,
          List.length_append, List.map_append, List.sum_append, true_and,
          and_true]
        refine ⟨by simp, ?_, ?_⟩
        · cases ho : (e.1 == Outcome.success) <;> simp [ho, List.filter]
        · push_cast
          have h1 : ((evs.length : ℚ) + 1 - 1) = (evs.length : ℚ) := by
            ring
          rw [h1, div_mul_cancel₀ _ hlen0]
          simp
      rw [hcapEq]

/-- Claim C3: after n complete_task calls for one agent class with
outcomes and durations evs (starting from a store not yet holding the
class), the stored row has total_executions = n, successful_executions
counting exactly the calls with the success outcome (hence at most n),
and avg_execution_time_ms equal to the arithmetic mean of the durations
(exactly, in the rational model of float arithmetic). -/
theorem claim3_running_mean (m0 : List AgentCapability) (ty : String)
    (evs : List (Outcome × ℚ)) (h0 : ∀ c ∈ m0, c.agent_type ≠ ty)
    (hne : evs ≠ []) :
    ∃ cap : AgentCapability,
      recallByAgentType (applyExecutions m0 ty evs) ty = some cap ∧
      cap.total_executions = evs.length ∧
      cap.successful_executions =
        (evs.filter (fun e => e.1 == Outcome.success)).length ∧
      cap.successful_executions ≤ cap.total_executions ∧
      cap.avg_execution_time_ms =
        (evs.map Prod.snd).sum / (evs.length : ℚ) := by
  refine ⟨learnedCap ty evs, ?_, rfl, rfl, ?_, rfl⟩
  · rw [applyExecutions_spec m0 ty h0 evs hne]
    exact recall_append m0 ty h0 _ rfl
  · exact List.length_filter_le _ _

/-- On a terminal error, the package-and-verify loop's final memory state
is the complete_task(failure, error text) state, whatever the attempt
index and remaining budget were. -/
theorem packageVerifyLoop_error_state (o : PipelineOracle) (s : MemState)
    (dur : ℚ) :
    ∀ (left k : ℕ) (e : String),
      (packageVerifyLoop o s dur k left).1 = .error e →
      (packageVerifyLoop o s dur k left).2 =
        (completeTask s .failure none dur none (some e)).2 := by
  intro left
  induction left with
  | zero =>
    intro k e h
    cases ha : packageVerifyAttempt o k with
    | ok tag =>
      simp only [packageVerifyLoop, ha] at h
      exact Except.noConfusion h
    | error e2 =>
      simp only [packageVerifyLoop, ha] at h ⊢
      simp only [Except.error.injEq] at h
      rw [h]
  | succ left ih =>
    intro k e h
    cases ha : packageVerifyAttempt o k with
    | ok tag =>
      simp only [packageVerifyLoop, ha] at h
      exact Except.noConfusion h
    | error e2 =>
      simp only [packageVerifyLoop, ha] at h ⊢
      exact ih (k + 1) e h

/-- A touch at one index changes no row content: mapping dropAccess
erases it. -/
theorem map_dropAccess_modifyAt (st : List TaskMemory) (i : ℕ) :
    (modifyAt touchRow st i).map dropAccess = st.map dropAccess := by
  induction st generalizing i with
  | nil => rfl
  | cons t rest ih =>
    cases i with
    | zero => simp [modifyAt, dropAccess, touchRow]
    | succ i => simp [modifyAt, ih i]

/-- The touch loop of recall_similar changes no row content. -/
theorem map_dropAccess_touchRows (idxs : List ℕ) (st : List TaskMemory) :
    (touchRows st idxs).map dropAccess = st.map dropAccess := by
  induction idxs generalizing st with
  | nil => rfl
  | cons i rest ih =>
    show (touchRows (modifyAt touchRow st i) rest).map dropAccess = _
    rw [ih, map_dropAccess_modifyAt]

/-- The context injection step changes no episodic row content: it only
bumps access metadata, and adds or removes no row. -/
theorem map_dropAccess_context (o : PipelineOracle)
    (st : List TaskMemory) :
    (contextInjectionTouch o st).map dropAccess = st.map dropAccess := by
  unfold contextInjectionTouch
  split_ifs with h
  · rw [map_dropAccess_touchRows, map_dropAccess_touchRows]
  · rw [map_dropAccess_touchRows]

/-- The episodic content of the post-context state is that of the initial
state, and the started task is current and pending in it. -/
theorem postContextState_spec (o : PipelineOracle) (s : MemState)
    (raw refined : String) :
    (postContextState o s raw refined).episodic.map dropAccess =
      s.episodic.map dropAccess ∧
    (postContextState o s raw refined).working =
      some (startTask s raw refined (classifyTask refined).agent_type).1 ∧
    (postContextState o s raw refined).semantic = s.semantic :=
  ⟨map_dropAccess_context o _, rfl, rfl⟩

/-- Claim C2, counterexample.  The claim states that any terminal pipeline
failure finalizes the in-flight task as an episodic failure entry.  When
the compile loop exhausts its budget, create_agent raises the compile
error but never calls complete_task: the episodic store stays empty and
the task is still pending in working memory. -/
theorem claim2_counterexample :
    (createAgent oracleCompileFail initialState "build me an agent" "zzz"
      5).1 = .error "compile boom" ∧
    (createAgent oracleCompileFail initialState "build me an agent" "zzz"
      5).2.episodic = [] ∧
    (createAgent oracleCompileFail initialState "build me an agent" "zzz"
      5).2.working ≠ none :=
  ⟨rfl, rfl, Option.some_ne_none _⟩

/-- Claim C2, amended.  When the package-and-verify loop fails terminally,
the task is finalized as an episodic entry with the failure outcome and
the error text, working memory is cleared, and the error is surfaced.
When the compile loop (or a repair call inside it) fails terminally, the
error is surfaced but the task is NOT finalized: it remains current and
pending in working memory, and the episodic store gains no entry and no
row's content changes (only access metadata is bumped by the context
recall) - in particular no failure entry is written. -/
theorem claim2_amended :
    (∀ (o : PipelineOracle) (s : MemState) (raw refined : String)
        (dur : ℚ) (e : String),
      compileLoop o 0 maxRetries = .error e →
        (createAgent o s raw refined dur).1 = .error e ∧
        (createAgent o s raw refined dur).2.episodic.map dropAccess =
          s.episodic.map dropAccess ∧
        (createAgent o s raw refined dur).2.working =
          some (startTask s raw refined
            (classifyTask refined).agent_type).1 ∧
        (startTask s raw refined
          (classifyTask refined).agent_type).1.outcome = Outcome.pending) ∧
    (∀ (o : PipelineOracle) (s : MemState) (raw refined : String)
        (dur : ℚ) (b e : String),
      compileLoop o 0 maxRetries = .ok b →
      (createAgent o s raw refined dur).1 = .error e →
        ∃ t : TaskMemory,
          (createAgent o s raw refined dur).2.episodic.map dropAccess =
            s.episodic.map dropAccess ++ [dropAccess t] ∧
          t.outcome = Outcome.failure ∧
          t.error_message = some e ∧
          t.execution_time_ms = dur ∧
          (createAgent o s raw refined dur).2.working = none) := by
  constructor
  · intro o s raw refined dur e hcl
    have h1 : createAgent o s raw refined dur =
        (.error e, postContextState o s raw refined) := by
      simp only [createAgent, hcl]
    rw [h1]
    exact ⟨rfl, (postContextState_spec o s raw refined).1, rfl, rfl⟩
  · intro o s raw refined dur b e hok herr
    have h1 : createAgent o s raw refined dur =
        packageVerifyLoop o (postContextState o s raw refined)
          dur 0 maxRetries := by
      simp only [createAgent, hok]
    rw [h1] at herr ⊢
    have hstate := packageVerifyLoop_error_state o
      (postContextState o s raw refined) dur maxRetries 0 e herr
    rw [hstate]
    refine ⟨{ (startTask s raw refined
        (classifyTask refined).agent_type).1 with
      outcome := .failure
      result_summary := none
      execution_time_ms := dur
      agent_image := none
      error_message := some e
      current_tier := .episodic }, ?_, rfl, rfl, rfl, rfl⟩
    show ((postContextState o s raw refined).episodic ++ [_]).map
      dropAccess = _
    rw [List.map_append, (postContextState_spec o s raw refined).1]
    rfl

/-- Witness for claim C2 exercising both branches: a run whose compile
budget is exhausted (error surfaced, memory untouched) and a run whose
push budget is exhausted (error surfaced, failure entry stored). -/
theorem claim2_witness :
    (compileLoop oracleCompileFail 0 maxRetries = .error "compile boom" ∧
      (createAgent oracleCompileFail initialState "raw" "zzz" 5).1 =
        .error "compile boom" ∧
      (createAgent oracleCompileFail initialState "raw" "zzz"
        5).2.episodic.map dropAccess =
        initialState.episodic.map dropAccess ∧
      (createAgent oracleCompileFail initialState "raw" "zzz"
        5).2.working =
        some (startTask initialState "raw" "zzz"
          (classifyTask "zzz").agent_type).1 ∧
      (startTask initialState "raw" "zzz"
        (classifyTask "zzz").agent_type).1.outcome = Outcome.pending) ∧
    (compileLoop oraclePushFail 0 maxRetries = .ok "binary" ∧
      (createAgent oraclePushFail initialState "raw" "zzz" 5).1 =
        .error "push boom" ∧
      ∃ t : TaskMemory,
        (createAgent oraclePushFail initialState "raw" "zzz"
          5).2.episodic.map dropAccess =
          initialState.episodic.map dropAccess ++ [dropAccess t] ∧
        t.outcome = Outcome.failure ∧
        t.error_message = some "push boom" ∧
        t.execution_time_ms = 5 ∧
        (createAgent oraclePushFail initialState "raw" "zzz"
          5).2.working = none) :=
  ⟨⟨rfl,
    claim2_amended.1 oracleCompileFail initialState "raw" "zzz" 5
      "compile boom" rfl⟩,
   ⟨rfl, rfl,
    claim2_amended.2 oraclePushFail initialState "raw" "zzz" 5 "binary"
      "push boom" rfl rfl⟩⟩

/-- Witness for claim C3: two executions of the research class, one
success of 100 ms and one failure of 50 ms, on an empty semantic store. -/
theorem claim3_witness :
    (∀ c ∈ ([] : List AgentCapability), c.agent_type ≠ "research_agent") ∧
    ([(Outcome.success, (100 : ℚ)), (Outcome.failure, 50)] ≠ []) ∧
    (∃ cap : AgentCapability,
      recallByAgentType (applyExecutions [] "research_agent"
        [(Outcome.success, 100), (Outcome.failure, 50)])
        "research_agent" = some cap ∧
      cap.total_executions =
        [(Outcome.success, (100 : ℚ)), (Outcome.failure, 50)].length ∧
      cap.successful_executions =
        ([(Outcome.success, (100 : ℚ)), (Outcome.failure, 50)].filter
          (fun e => e.1 == Outcome.success)).length ∧
      cap.successful_executions ≤ cap.total_executions ∧
      cap.avg_execution_time_ms =
        ([(Outcome.success, (100 : ℚ)), (Outcome.failure, 50)].map
          Prod.snd).sum /
          (([(Outcome.success, (100 : ℚ)),
            (Outcome.failure, 50)].length : ℚ))) :=
  ⟨by simp, by simp,
   claim3_running_mean [] "research_agent"
     [(Outcome.success, 100), (Outcome.failure, 50)] (by simp) (by simp)⟩

/-- The decimal rendering never produces the empty string (with nonzero
fuel). -/
theorem decDigitsAux_ne_nil (fuel n : ℕ) :
    decDigitsAux (fuel + 1) n ≠ [] := by
  unfold decDigitsAux
  split_ifs with h
  · simp
  · simp

/-- A digit character below ten satisfies isDigit. -/
theorem decDigit_isDigit (n : ℕ) (h : n < 10) :
    (decDigit n).isDigit = true := by
  interval_cases n <;> decide

/-- Every character of the decimal rendering is a digit. -/
theorem decDigitsAux_all_digits :
    ∀ fuel n, (decDigitsAux fuel n).all Char.isDigit = true := by
  intro fuel
  induction fuel with
  | zero => intro n; rfl
  | succ fuel ih =>
    intro n
    unfold decDigitsAux
    split_ifs with h
    · simp [decDigit_isDigit n h]
    · simp [List.all_append, ih (n / 10),
        decDigit_isDigit (n % 10) (Nat.mod_lt _ (by norm_num))]

/-- The decimal digits of a natural number are nonempty. -/
theorem decDigits_ne_nil (n : ℕ) : decDigits n ≠ [] :=
  decDigitsAux_ne_nil n n

/-- The decimal digits of a natural number are all digit characters. -/
theorem decDigits_all_digits (n : ℕ) :
    (decDigits n).all Char.isDigit = true :=
  decDigitsAux_all_digits (n + 1) n

/-- Claim C9, counterexample.  At agent class research and build second
1700000000 the pipeline produces the name helix-research-agent-1700000000,
which does not match the claimed pattern helix-(class)-(digits) because of
the -agent- infix; and the image configuration carries only the two labels
helix.task and helix.capabilities, not all five, because build_and_push
writes only those two LABEL lines (the joined label string it builds is
never used). -/
theorem claim9_counterexample :
    ¬ (specNameMatch (agentName "research_agent" 1700000000) = true ∧
       hasAllLabels (imageLabels (buildMetadata "research_agent"
         "research the history of the internet" "1700000000.0")) = true) := by
  decide

/-- Claim C9, amended.  For every class the pipeline can produce, the
image name is helix-(short class name)-agent-(decimal digits of the build
second); the metadata dict handed to the builder does carry all five
helix labels, but the image configuration itself receives exactly the two
labels helix.task and helix.capabilities. -/
theorem claim9_amended (ty : String) (hty : ty ∈ agentTypes) (ts : ℕ)
    (refined createdStr : String) :
    (∃ short ds, short ∈ agentClasses ∧ short = typeShort ty ∧
       ds ≠ [] ∧ ds.all Char.isDigit = true ∧
       (agentName ty ts).data =
         ("helix-" ++ short ++ "-agent-").data ++ ds) ∧
    (imageLabels (buildMetadata ty refined createdStr)).map Prod.fst =
      ["helix.task", "helix.capabilities"] ∧
    hasAllLabels (buildMetadata ty refined createdStr) = true := by
  refine ⟨⟨typeShort ty, decDigits ts, ?_, rfl, decDigits_ne_nil ts,
    decDigits_all_digits ts, ?_⟩, rfl, ?_⟩
  · fin_cases hty <;> decide
  · simp only [agentName, String.data_append, List.append_assoc]
    rfl
  · rfl

/-- Witness for claim C9 at the research class and build second
1700000000. -/
theorem claim9_witness :
    ("research_agent" ∈ agentTypes) ∧
    ((∃ short ds, short ∈ agentClasses ∧
        short = typeShort "research_agent" ∧
        ds ≠ [] ∧ ds.all Char.isDigit = true ∧
        (agentName "research_agent" 1700000000).data =
          ("helix-" ++ short ++ "-agent-").data ++ ds) ∧
      (imageLabels (buildMetadata "research_agent" "sample task"
        "1700000000.0")).map Prod.fst =
        ["helix.task", "helix.capabilities"] ∧
      hasAllLabels (buildMetadata "research_agent" "sample task"
        "1700000000.0") = true) :=
  ⟨by decide,
   claim9_amended "research_agent" (by decide) 1700000000 "sample task"
     "1700000000.0"⟩

end Helix
